import Mathlib

/-!
Verification of the Legacy25 event-registration backend.

The definitions below are a shallow embedding of the JavaScript route
handlers and Mongoose models of the repository.  Documents are Lean
structures, database collections are lists, `ObjectId`s are natural
numbers, timestamps are natural numbers (milliseconds), and each route
handler is a pure function from a request and a database state to an
HTTP-style response paired with the successor state.  External
collaborators (the HMAC-SHA256 primitive of node `crypto`, the SHA-256
hash, outbound email) are taken as parameters, exactly as the backend
takes them as opaque libraries.
-/

namespace Legacy

/-! ## JavaScript truthiness helpers -/

/-- Truthiness of an optional numeric field: `undefined`/`null` and `0`
are falsy in JavaScript. -/
def jsTruthyNat : Option Nat → Bool
  | none => false
  | some n => n != 0

/-- `a || d` for an optional numeric value (`0` is falsy). -/
def jsOrNat (o : Option Nat) (d : Nat) : Nat :=
  match o with
  | none => d
  | some n => if n = 0 then d else n

/-- `a || d` for an optional string value (`""` is falsy). -/
def jsOrStr (o : Option String) (d : String) : String :=
  match o with
  | none => d
  | some s => if s = "" then d else s

/-! ## Data model (src/models) -/

/-- One entry of `Event.applications` (models/events.js). -/
structure Application where
  userId : Nat
  teamId : Option Nat
  appliedAt : Nat
  status : Option String
  deriving Repr, DecidableEq

/-- One entry of `Event.staff_incharges` (models/events.js). -/
structure StaffIncharge where
  adminId : Nat
  name : String
  email : String
  club : String
  deriving Repr, DecidableEq

/-- An event document (models/events.js); only the fields the verified
handlers read are carried. -/
structure Event where
  id : Nat
  event_type : String
  minTeamSize : Option Nat
  maxTeamSize : Option Nat
  isActive : Bool
  maxApplications : Option Nat
  applicationDeadline : Option Nat
  hasGenderBasedTeams : Bool
  maxBoyTeams : Option Nat
  maxGirlTeams : Option Nat
  applications : List Application
  staff_incharges : List StaffIncharge
  deriving Repr, DecidableEq

/-- One entry of `Team.members` (models/teams.js); `userId` is absent for
direct participants. -/
structure Member where
  userId : Option Nat
  joinedAt : Option Nat
  deriving Repr, DecidableEq

/-- A team document (models/teams.js). -/
structure Team where
  id : Nat
  eventId : Nat
  teamName : String
  leader : Nat
  members : List Member
  maxMembers : Nat
  isRegistered : Bool
  registeredAt : Option Nat
  registeredBy : Option Nat
  teamGender : Option String
  isInvalidated : Bool
  invalidatedAt : Option Nat
  invalidatedReason : Option String
  deriving Repr, DecidableEq

/-- An invite document (models/invites.js). -/
structure Invite where
  id : Nat
  eventId : Nat
  teamId : Nat
  inviterId : Nat
  inviteeId : Nat
  status : String
  respondedAt : Option Nat
  deriving Repr, DecidableEq

/-- A user document (models/users.js); only the fields the verified
handlers read are carried. -/
structure User where
  id : Nat
  name : String
  email : String
  password : String
  gender : String
  phoneNumber : Option String
  role : String
  isSuperAdmin : Bool
  club : Option String
  assignedEvent : Option Nat
  isVerified : Bool
  deriving Repr, DecidableEq

/-- A transaction document (models/transactions.js). -/
structure Transaction where
  orderId : String
  paymentId : String
  signature : String
  amount : Nat
  status : Bool
  userId : Nat
  deriving Repr, DecidableEq

/-- An admin-invite document (models/adminInvite.js). -/
structure AdminInvite where
  id : Nat
  email : String
  clubName : String
  eventId : Nat
  inviteToken : String
  inviteTokenExpire : Nat
  invitedBy : Nat
  isUsed : Bool
  usedAt : Option Nat
  adminId : Option Nat
  deriving Repr, DecidableEq

/-- The HTTP-level outcome every handler produces. -/
structure ApiResponse where
  status : Nat
  success : Bool
  message : String
  deriving Repr, DecidableEq

/-! ## Collection lookups -/

def findEvent (events : List Event) (eid : Nat) : Option Event :=
  events.find? (fun e => e.id == eid)

def findTeam (teams : List Team) (tid : Nat) : Option Team :=
  teams.find? (fun t => t.id == tid)

def findUser (users : List User) (uid : Nat) : Option User :=
  users.find? (fun u => u.id == uid)

def findUserByEmail (users : List User) (email : String) : Option User :=
  users.find? (fun u => u.email == email)

def findInvite (invites : List Invite) (iid : Nat) : Option Invite :=
  invites.find? (fun i => i.id == iid)

/-- `findByIdAndUpdate`: rewrite the documents whose id matches. -/
def updateById {α : Type} (getId : α → Nat) (tid : Nat) (g : α → α)
    (l : List α) : List α :=
  l.map fun x => if getId x = tid then g x else x

/-- `findOneAndDelete`: remove the first document matching the filter. -/
def findOneAndDelete {α : Type} (p : α → Bool) : List α → List α
  | [] => []
  | x :: xs => if p x then xs else x :: findOneAndDelete p xs

/-! ## Registration workflow (src/controllers/registrationController.js,
src/unnamed/part_007, src/unnamed/part_009) -/

/-- The database state the registration, team and invite handlers touch. -/
structure RegState where
  events : List Event
  teams : List Team
  users : List User
  invites : List Invite
  nextId : Nat
  deriving Repr, DecidableEq

/-- Shared helper `isUserRegisteredForEvent` (identical copies live in
registrationController.js, part_007 and part_009): the user sits in a
registered team of the event, or holds a solo application (an
application without a `teamId`). -/
def isUserRegisteredForEvent (teams : List Team) (events : List Event)
    (userId eventId : Nat) : Bool :=
  (teams.any fun t =>
    t.eventId == eventId && t.isRegistered &&
      (t.leader == userId || t.members.any (fun m => m.userId == some userId))) ||
  (match findEvent events eventId with
   | some e => e.applications.any fun a => a.userId == userId && a.teamId.isNone
   | none => false)

/-- `new Date() > new Date(event.applicationDeadline)` guarded by the
truthiness of the field. -/
def deadlinePassed (e : Event) (now : Nat) : Bool :=
  match e.applicationDeadline with
  | some d => decide (d < now)
  | none => false

/-- Applications without a `teamId` (`applications.filter(app => !app.teamId)`). -/
def soloApplications (e : Event) : List Application :=
  e.applications.filter fun a => a.teamId.isNone

/-- `Teams.countDocuments({eventId, isRegistered: true})`. -/
def registeredTeamsCount (teams : List Team) (eid : Nat) : Nat :=
  (teams.filter fun t => t.eventId == eid && t.isRegistered).length

/-- `registerSoloEvent` (registrationController.js). -/
def registerSoloEvent (st : RegState) (eventId userId now : Nat) :
    ApiResponse × RegState :=
  match findEvent st.events eventId with
  | none => (⟨404, false, "Event not found"⟩, st)
  | some event =>
    if event.event_type ≠ "solo" then
      (⟨400, false, "This is not a solo event"⟩, st)
    else if isUserRegisteredForEvent st.teams st.events userId eventId then
      (⟨400, false, "You are already registered for this event"⟩, st)
    else if jsTruthyNat event.maxApplications = true ∧
        event.maxApplications.getD 0 ≤ (soloApplications event).length then
      (⟨400, false, "Event is full"⟩, st)
    else if deadlinePassed event now then
      (⟨400, false, "Registration deadline has passed"⟩, st)
    else
      let event' := { event with applications :=
        event.applications ++ [⟨userId, none, now, none⟩] }
      (⟨200, true, "Successfully registered for the event"⟩,
       { st with events := updateById Event.id eventId (fun _ => event') st.events })

/-- `registerForEvent` (part_007): the solo handler mounted under
`/events/register`; note it checks `isActive` and compares the raw
`applications.length` against `maxApplications`. -/
def registerForEvent (st : RegState) (eventId userId now : Nat) :
    ApiResponse × RegState :=
  match findEvent st.events eventId with
  | none => (⟨404, false, "Event not found"⟩, st)
  | some event =>
    if isUserRegisteredForEvent st.teams st.events userId eventId then
      (⟨400, false, "You are already registered for this event"⟩, st)
    else if event.isActive = false then
      (⟨400, false, "Event is not active"⟩, st)
    else if jsTruthyNat event.maxApplications = true ∧
        event.maxApplications.getD 0 ≤ event.applications.length then
      (⟨400, false, "Event is full"⟩, st)
    else if deadlinePassed event now then
      (⟨400, false, "Registration deadline has passed"⟩, st)
    else
      let event' := { event with applications :=
        event.applications ++ [⟨userId, none, now, some "pending"⟩] }
      (⟨200, true, "Successfully registered for the event"⟩,
       { st with events := updateById Event.id eventId (fun _ => event') st.events })

/-- `registerGroupEvent` (registrationController.js): creates the team;
capacity counts registered teams, not applications. -/
def registerGroupEvent (st : RegState) (eventId : Nat) (teamName : String)
    (userId now : Nat) : ApiResponse × RegState :=
  match findEvent st.events eventId with
  | none => (⟨404, false, "Event not found"⟩, st)
  | some event =>
    if event.event_type ≠ "group" then
      (⟨400, false, "This is not a group event"⟩, st)
    else if isUserRegisteredForEvent st.teams st.events userId eventId then
      (⟨400, false,
        "You are already registered for this event and cannot create a new team"⟩, st)
    else if st.teams.any (fun t => t.eventId == eventId &&
        (t.leader == userId || t.members.any (fun m => m.userId == some userId))) then
      (⟨400, false, "You are already part of a team for this event"⟩, st)
    else if jsTruthyNat event.maxApplications = true ∧
        event.maxApplications.getD 0 ≤ registeredTeamsCount st.teams eventId then
      (⟨400, false, "Event is full"⟩, st)
    else if deadlinePassed event now then
      (⟨400, false, "Registration deadline has passed"⟩, st)
    else
      let team : Team :=
        { id := st.nextId, eventId := eventId, teamName := teamName,
          leader := userId, members := [⟨some userId, none⟩],
          maxMembers := jsOrNat event.maxTeamSize 6,
          isRegistered := false, registeredAt := none, registeredBy := none,
          teamGender := none, isInvalidated := false,
          invalidatedAt := none, invalidatedReason := none }
      (⟨201, true, "Team created successfully. You can now invite other members."⟩,
       { st with teams := st.teams ++ [team], nextId := st.nextId + 1 })

/-! ## Team formation (src/unnamed/part_009) -/

/-- `determineTeamGender`: team gender derived from the leader. -/
def determineTeamGender (leaderGender : String) : String :=
  if leaderGender = "Male" then "Male"
  else if leaderGender = "Female" then "Female"
  else "Mixed"

/-- Result of `checkGenderCompatibility`. -/
structure CompatResult where
  compatible : Bool
  message : Option String
  deriving Repr, DecidableEq

/-- `checkGenderCompatibility` (part_009). -/
def checkGenderCompatibility (st : RegState) (eventId teamId userId : Nat) :
    CompatResult :=
  match findEvent st.events eventId with
  | none => ⟨true, none⟩
  | some event =>
    if event.hasGenderBasedTeams = false then ⟨true, none⟩
    else match findTeam st.teams teamId with
    | none => ⟨false, some "Team not found"⟩
    | some team =>
      match findUser st.users userId with
      | none => ⟨false, some "User not found"⟩
      | some user =>
        match team.teamGender with
        | none => ⟨true, none⟩
        | some g =>
          if g ≠ "" ∧ g ≠ "Mixed" then
            if g = "Male" ∧ user.gender ≠ "Male" then
              ⟨false, some "Boys can only be added to boy teams in this event"⟩
            else if g = "Female" ∧ user.gender ≠ "Female" then
              ⟨false, some "Girls can only be added to girl teams in this event"⟩
            else ⟨true, none⟩
          else ⟨true, none⟩

/-- Result of `checkGenderBasedTeamLimits`. -/
structure LimitResult where
  withinLimits : Bool
  message : Option String
  deriving Repr, DecidableEq

/-- `checkGenderBasedTeamLimits` (part_009). -/
def checkGenderBasedTeamLimits (st : RegState) (eventId : Nat) (teamGender : String) :
    LimitResult :=
  match findEvent st.events eventId with
  | none => ⟨true, none⟩
  | some event =>
    if event.hasGenderBasedTeams = false then ⟨true, none⟩
    else
      let cnt := (st.teams.filter fun t =>
        t.eventId == eventId && t.teamGender == some teamGender && t.isRegistered).length
      if teamGender = "Male" ∧ jsTruthyNat event.maxBoyTeams = true ∧
          event.maxBoyTeams.getD 0 ≤ cnt then
        ⟨false, some ("Maximum limit of " ++ toString (event.maxBoyTeams.getD 0) ++
          " boy teams reached for this event")⟩
      else if teamGender = "Female" ∧ jsTruthyNat event.maxGirlTeams = true ∧
          event.maxGirlTeams.getD 0 ≤ cnt then
        ⟨false, some ("Maximum limit of " ++ toString (event.maxGirlTeams.getD 0) ++
          " girl teams reached for this event")⟩
      else ⟨true, none⟩

/-- `createTeam` (part_009). -/
def createTeam (st : RegState) (eventId : Nat) (teamName : String)
    (userId : Nat) : ApiResponse × RegState :=
  match findEvent st.events eventId with
  | none => (⟨404, false, "Event not found"⟩, st)
  | some event =>
    if event.event_type ≠ "group" then
      (⟨400, false, "Teams can only be created for group events"⟩, st)
    else if isUserRegisteredForEvent st.teams st.events userId eventId then
      (⟨400, false,
        "You are already registered for this event and cannot create a new team"⟩, st)
    else if st.teams.any (fun t => t.eventId == eventId &&
        (t.leader == userId || t.members.any (fun m => m.userId == some userId))) then
      (⟨400, false, "You are already part of a team for this event"⟩, st)
    else match findUser st.users userId with
    | none => (⟨404, false, "User not found"⟩, st)
    | some leader =>
      let teamGender : Option String :=
        if event.hasGenderBasedTeams then some (determineTeamGender leader.gender)
        else none
      let team : Team :=
        { id := st.nextId, eventId := eventId, teamName := teamName,
          leader := userId, members := [⟨some userId, none⟩],
          maxMembers := event.maxTeamSize.getD 6,
          isRegistered := false, registeredAt := none, registeredBy := none,
          teamGender := teamGender, isInvalidated := false,
          invalidatedAt := none, invalidatedReason := none }
      (⟨201, true, "Team created successfully"⟩,
       { st with teams := st.teams ++ [team], nextId := st.nextId + 1 })

/-- Per-invitee outcome of the `inviteToTeam` loop (part_009): either an
invite document is created, or an error string is pushed. -/
inductive InviteOutcome where
  | sent (inv : Invite)
  | err (msg : String)
  deriving Repr, DecidableEq

/-- One iteration of the `inviteToTeam` loop body (part_009), for a team
the caller already belongs to and that is not yet registered. -/
def inviteStep (st : RegState) (team : Team) (userId inviteeId _now : Nat) :
    InviteOutcome × RegState :=
  match findUser st.users inviteeId with
  | none => (.err ("User with ID " ++ toString inviteeId ++ " not found"), st)
  | some invitee =>
    if invitee.role = "admin" then
      (.err ("Cannot invite " ++ invitee.name ++
        " - admins cannot be invited to teams"), st)
    else if inviteeId = userId then
      (.err "You cannot invite yourself", st)
    else if isUserRegisteredForEvent st.teams st.events inviteeId team.eventId then
      (.err ("Cannot invite " ++ invitee.name ++
        " - they are already registered for this event"), st)
    else if team.members.any (fun m => m.userId == some inviteeId) then
      (.err (invitee.name ++ " is already in the team"), st)
    else if st.invites.any (fun i => i.teamId == team.id &&
        i.inviteeId == inviteeId && i.status == "pending") then
      (.err (invitee.name ++ " already has a pending invite"), st)
    else if team.maxMembers ≤ team.members.length +
        (st.invites.filter fun i => i.teamId == team.id && i.status == "pending").length then
      (.err "Team is full or has too many pending invites", st)
    else
      let genderCheck := checkGenderCompatibility st team.eventId team.id inviteeId
      if genderCheck.compatible = false then
        (.err ("Cannot invite " ++ invitee.name ++ " - " ++ (genderCheck.message.getD "")), st)
      else
        let invite : Invite :=
          { id := st.nextId, eventId := team.eventId, teamId := team.id,
            inviterId := userId, inviteeId := inviteeId,
            status := "pending", respondedAt := none }
        (.sent invite,
         { st with invites := st.invites ++ [invite], nextId := st.nextId + 1 })

/-- `respondToInvite` (part_009).  A dangling `teamId`/`eventId` reference
would make the handler throw, which `catchAsyncError` surfaces as a 500. -/
def respondToInvite (st : RegState) (inviteId userId : Nat) (response : String)
    (now : Nat) : ApiResponse × RegState :=
  match findInvite st.invites inviteId with
  | none => (⟨404, false, "Invite not found"⟩, st)
  | some invite =>
    if invite.inviteeId ≠ userId then
      (⟨403, false, "This invite is not for you"⟩, st)
    else if invite.status ≠ "pending" then
      (⟨400, false, "Invite has already been responded to"⟩, st)
    else if response = "accept" then
      match findTeam st.teams invite.teamId with
      | none => (⟨500, false, "Internal Server Error"⟩, st)
      | some team =>
        if isUserRegisteredForEvent st.teams st.events userId team.eventId then
          (⟨400, false,
            "You are already registered for this event and cannot accept new invitations"⟩, st)
        else match findEvent st.events team.eventId with
        | none => (⟨500, false, "Internal Server Error"⟩, st)
        | some event =>
          if (match event.maxTeamSize with
              | some m => decide (m ≤ team.members.length)
              | none => false) then
            (⟨400, false, "Team is already full"⟩, st)
          else match st.teams.find? (fun t => t.eventId == invite.eventId &&
              (t.leader == userId || t.members.any (fun m => m.userId == some userId))) with
          | some other =>
            if other.id ≠ team.id then
              (⟨400, false, "You are already part of another team for this event"⟩, st)
            else
              (⟨200, true, "Successfully joined the team"⟩, acceptInvite st invite userId now)
          | none =>
            (⟨200, true, "Successfully joined the team"⟩, acceptInvite st invite userId now)
    else if response = "decline" then
      let invites' := updateById Invite.id invite.id
        (fun i => { i with status := "declined", respondedAt := some now }) st.invites
      (⟨200, true, "Invite declined"⟩, { st with invites := invites' })
    else
      (⟨400, false, "Invalid response. Use \x27accept\x27 or \x27decline\x27"⟩, st)
where
  -- `$push` the invitee into the team, then mark the invite accepted.
  acceptInvite (st : RegState) (invite : Invite) (userId now : Nat) : RegState :=
    let teams' := updateById Team.id invite.teamId
      (fun t => { t with members := t.members ++ [⟨some userId, some now⟩] }) st.teams
    let invites' := updateById Invite.id invite.id
      (fun i => { i with status := "accepted", respondedAt := some now }) st.invites
    { st with teams := teams', invites := invites' }

/-- The `$or` filter of the invalidation `updateMany` in `registerTeam`:
the team's leader, or any member with a `userId`, occurs among the newly
registered member ids. -/
def sharesMemberWith (memberIds : List Nat) (t : Team) : Bool :=
  memberIds.contains t.leader ||
    t.members.any fun m =>
      match m.userId with
      | some u => memberIds.contains u
      | none => false

/-- The update `registerTeam` applies to the registered team itself. -/
def markRegistered (now userId : Nat) (t : Team) : Team :=
  { t with isRegistered := true, registeredAt := some now,
           registeredBy := some userId }

/-- The `$set` of the invalidation `updateMany` in `registerTeam`: a
soft denial, the team document is kept. -/
def invalidateTeam (now : Nat) (t : Team) : Team :=
  { t with isInvalidated := true, invalidatedAt := some now,
           invalidatedReason := some "Member registered with another team" }

/-- `registerTeam` (part_009): pushes one application per member onto the
event, marks the team registered, then soft-invalidates every other
unregistered team of the event that shares a member. -/
def registerTeam (st : RegState) (teamId userId now : Nat) :
    ApiResponse × RegState :=
  match findTeam st.teams teamId with
  | none => (⟨404, false, "Team not found"⟩, st)
  | some team =>
    if (team.members.any fun m => m.userId == some userId) = false then
      (⟨403, false, "Only team members can register the team"⟩, st)
    else if team.isRegistered then
      (⟨400, false, "Team is already registered"⟩, st)
    else match findEvent st.events team.eventId with
    | none => (⟨500, false, "Internal Server Error"⟩, st)
    | some event =>
      if jsTruthyNat event.maxApplications = true ∧
          event.maxApplications.getD 0 ≤ registeredTeamsCount st.teams team.eventId then
        (⟨400, false, "Event is full"⟩, st)
      else
        let genderCheck :=
          if event.hasGenderBasedTeams = true ∧ team.teamGender.isSome = true then
            checkGenderBasedTeamLimits st team.eventId (team.teamGender.getD "")
          else ⟨true, none⟩
        if genderCheck.withinLimits = false then
          (⟨400, false, genderCheck.message.getD ""⟩, st)
        else if deadlinePassed event now then
          (⟨400, false, "Registration deadline has passed"⟩, st)
        else if team.members.length < jsOrNat event.minTeamSize 2 then
          (⟨400, false, "Team needs at least " ++ toString (jsOrNat event.minTeamSize 2) ++
            " members to register"⟩, st)
        else
          let memberIds := team.members.filterMap fun m => m.userId
          let newApps : List Application :=
            memberIds.map (fun uid => ⟨uid, some teamId, now, none⟩)
          let event' := { event with applications := event.applications ++ newApps }
          let teams₁ := updateById Team.id teamId (markRegistered now userId) st.teams
          let teams₂ := teams₁.map fun t =>
            if t.eventId = team.eventId ∧ t.id ≠ teamId ∧
                sharesMemberWith memberIds t = true ∧ t.isRegistered = false then
              invalidateTeam now t
            else t
          (⟨200, true, "Team registered successfully"⟩,
           { st with events := updateById Event.id event.id (fun _ => event') st.events,
                     teams := teams₂ })

/-! ## Signup and payment-gated signup (src/unnamed/part_006,
src/unnamed/part_008) -/

/-- The database state the signup and payment handlers touch. -/
structure AccountState where
  users : List User
  transactions : List Transaction
  nextUserId : Nat
  deriving Repr, DecidableEq

/-- The signup payload (`req.body` of `signUpUser`, and `userData` of the
payment flow). -/
structure SignupRequest where
  name : String
  email : String
  password : String
  gender : String
  phoneNumber : Option String
  role : Option String
  deriving Repr, DecidableEq

/-- The user collection after the duplicate-email prologue of
`signUpUser` (part_006): an unverified holder of the email is removed,
a verified one leaves the collection untouched. -/
def signupRemainingUsers (email : String) (users : List User) : List User :=
  match findUserByEmail users email with
  | some u =>
    if u.isVerified then users
    else findOneAndDelete (fun x => x.email == email && x.isVerified == false) users
  | none => users

/-- The creation suffix of `signUpUser` (part_006), run after the
duplicate-email prologue: the bootstrap branch keys on the user count of
the database at this point.  `emailOk` stands for the outcome of the
outbound verification email; on failure the handler answers 500 but the
user document has already been saved. -/
def signUpCreate (r : SignupRequest) (emailOk : Bool) (st : AccountState) :
    ApiResponse × AccountState :=
  let isFirstUser := st.users.length == 0
  let user : User :=
    { id := st.nextUserId, name := r.name, email := r.email,
      password := r.password, gender := r.gender,
      phoneNumber := if isFirstUser then none else r.phoneNumber,
      role := if isFirstUser then "admin" else jsOrStr r.role "user",
      isSuperAdmin := isFirstUser,
      club := if isFirstUser then some "FINE ARTS" else none,
      assignedEvent := none, isVerified := false }
  let st' := { st with users := st.users ++ [user], nextUserId := st.nextUserId + 1 }
  if emailOk then
    (⟨201, true,
      if isFirstUser then
        "🎉 Welcome! You have been automatically made a Super Admin. Please check your email to verify your account."
      else
        "User registered successfully. Please check your email to verify your account."⟩,
     st')
  else
    (⟨500, false, "Failed to send verification email. Please try again later."⟩, st')

/-- `signUpUser` (part_006). -/
def signUpUser (r : SignupRequest) (emailOk : Bool) (st : AccountState) :
    ApiResponse × AccountState :=
  match findUserByEmail st.users r.email with
  | some u =>
    if u.isVerified then
      (⟨400, false, "Email already registered and verified. Please login instead."⟩, st)
    else
      signUpCreate r emailOk
        { st with users := signupRemainingUsers r.email st.users }
  | none => signUpCreate r emailOk st

/-- `req.body` of `verifyPaymentAndCreateUser` (part_008). -/
structure PaymentRequest where
  razorpay_order_id : String
  razorpay_payment_id : String
  razorpay_signature : String
  amount : Nat
  userData : SignupRequest
  deriving Repr, DecidableEq

/-- The creation suffix of `verifyPaymentAndCreateUser`: the user and the
transaction documents saved after a successful signature check (an email
failure is swallowed by the handler). -/
def payCreate (r : PaymentRequest) (st : AccountState) : ApiResponse × AccountState :=
  let user : User :=
    { id := st.nextUserId, name := r.userData.name, email := r.userData.email,
      password := r.userData.password, gender := r.userData.gender,
      phoneNumber := r.userData.phoneNumber, role := "user",
      isSuperAdmin := false, club := none, assignedEvent := none,
      isVerified := false }
  let txn : Transaction :=
    { orderId := r.razorpay_order_id, paymentId := r.razorpay_payment_id,
      signature := r.razorpay_signature, amount := r.amount,
      status := true, userId := user.id }
  (⟨200, true,
    "Payment verified and account created successfully! Please check your email for verification."⟩,
   { st with users := st.users ++ [user],
             transactions := st.transactions ++ [txn],
             nextUserId := st.nextUserId + 1 })

/-- `verifyPaymentAndCreateUser` (part_008).  `hmac secret body` stands
for `crypto.createHmac("sha256", secret).update(body).digest("hex")`;
the HMAC-SHA256 primitive is an external library and is taken as a
parameter. -/
def verifyPaymentAndCreateUser (hmac : String → String → String)
    (secret : String) (r : PaymentRequest) (st : AccountState) :
    ApiResponse × AccountState :=
  let body := r.razorpay_order_id ++ "|" ++ r.razorpay_payment_id
  let expectedSignature := hmac secret body
  if expectedSignature ≠ r.razorpay_signature then
    (⟨400, false, "Payment verification failed"⟩, st)
  else
    match findUserByEmail st.users r.userData.email with
    | some u =>
      if u.isVerified then
        (⟨400, false, "Email already registered and verified. Please login instead."⟩, st)
      else
        let users' := findOneAndDelete
          (fun x => x.email == r.userData.email && x.isVerified == false) st.users
        payCreate r { st with users := users' }
    | none => payCreate r st

/-! ## Admin invites (src/models/adminInvite.js, src/unnamed/part_005) -/

/-- The database state the admin-invite handlers touch. -/
structure AdminState where
  adminInvites : List AdminInvite
  users : List User
  events : List Event
  nextUserId : Nat
  deriving Repr, DecidableEq

/-- `generateInviteToken` (models/adminInvite.js): the random raw token
is a parameter, `hash` stands for SHA-256; the stored document keeps the
digest and an expiry of seven days. -/
def generateInviteToken (hash : String → String) (inv : AdminInvite)
    (rawToken : String) (now : Nat) : String × AdminInvite :=
  (rawToken,
   { inv with inviteToken := hash rawToken,
              inviteTokenExpire := now + 7 * 24 * 60 * 60 * 1000 })

/-- The `AdminInvite.findOne({inviteToken: hash, inviteTokenExpire:
{$gt: now}, isUsed: false})` filter shared by `getInviteDetails` and
`completeAdminSignup` (part_005). -/
def findValidAdminInvite (hash : String → String) (invites : List AdminInvite)
    (token : String) (now : Nat) : Option AdminInvite :=
  invites.find? fun i =>
    i.inviteToken == hash token && decide (now < i.inviteTokenExpire) && i.isUsed == false

/-- `getInviteDetails` (part_005); read-only, so only the response is
modelled. -/
def getInviteDetails (hash : String → String) (st : AdminState)
    (token : String) (now : Nat) : ApiResponse :=
  match findValidAdminInvite hash st.adminInvites token now with
  | none => ⟨400, false, "Invalid or expired invitation token"⟩
  | some _ => ⟨200, true, "Invitation details fetched"⟩

/-- The valid club enum values (part_005 `mapClubName`). -/
def validClubs : List String :=
  ["FINE ARTS", "LITERARY", "PHOTOGRAPHY", "BLUESKY", "INNOVATIVE", "NATURE",
   "HEALTH", "SUSTAINABLE", "RIFLE", "CONSUMER", "NCC", "READERS", "NSS",
   "HERITAGE"]

/-- The `clubMapping` table of `mapClubName` (part_005). -/
def clubMapping : String → Option String
  | "FINE_ARTS" => some "FINE ARTS"
  | "BLUE_SKY" => some "BLUESKY"
  | "BLUE SKY" => some "BLUESKY"
  | "BLUESKY FORUM" => some "BLUESKY"
  | "READERS CLUB" => some "READERS"
  | "READERS\x27" => some "READERS"
  | "PHOTOGRAPHY CLUB" => some "PHOTOGRAPHY"
  | "LITERARY CLUB" => some "LITERARY"
  | "INNOVATIVE CLUB" => some "INNOVATIVE"
  | "NATURE CLUB" => some "NATURE"
  | "HEALTH CLUB" => some "HEALTH"
  | "SUSTAINABLE CLUB" => some "SUSTAINABLE"
  | "CONSUMER CLUB" => some "CONSUMER"
  | "NATIONAL CADET CORPS" => some "NCC"
  | "NATIONAL SERVICE SCHEME" => some "NSS"
  | "HERITAGE CLUB" => some "HERITAGE"
  | "Heritage" => some "HERITAGE"
  | "Blue Sky Forum" => some "BLUESKY"
  | "Readers\x27 Club" => some "READERS"
  | "Photography Club" => some "PHOTOGRAPHY"
  | "Dance Club" => some "FINE ARTS"
  | "Music Club" => some "FINE ARTS"
  | "Drama Club" => some "LITERARY"
  | "Tech Club" => some "INNOVATIVE"
  | "Literary Club" => some "LITERARY"
  | "Sports Club" => some "NCC"
  | "Cultural Club" => some "FINE ARTS"
  | _ => none

/-- `mapClubName` (part_005). -/
def mapClubName (clubName : String) : String :=
  if validClubs.contains clubName then clubName
  else jsOrStr (clubMapping clubName) "FINE ARTS"

/-- `completeAdminSignup` (part_005).  A dangling `eventId` reference on
the invite would make the handler throw at user creation, surfaced as a
500. -/
def completeAdminSignup (hash : String → String) (st : AdminState)
    (token name password gender : String) (now : Nat) :
    ApiResponse × AdminState :=
  if name = "" ∨ password = "" ∨ gender = "" then
    (⟨400, false, "All fields are required"⟩, st)
  else match findValidAdminInvite hash st.adminInvites token now with
  | none => (⟨400, false, "Invalid or expired invitation token"⟩, st)
  | some invite =>
    match findUserByEmail st.users invite.email with
    | some _ => (⟨400, false, "User with this email already exists"⟩, st)
    | none =>
      match findEvent st.events invite.eventId with
      | none => (⟨500, false, "Internal Server Error"⟩, st)
      | some event =>
        let mappedClubName := mapClubName invite.clubName
        let adminUser : User :=
          { id := st.nextUserId, name := name, email := invite.email,
            password := password, gender := gender,
            phoneNumber := some "9999999999", role := "admin",
            isSuperAdmin := false, club := some mappedClubName,
            assignedEvent := some invite.eventId, isVerified := true }
        let newIncharge : StaffIncharge :=
          ⟨adminUser.id, adminUser.name, adminUser.email, mappedClubName⟩
        let event' :=
          { event with staff_incharges := event.staff_incharges ++ [newIncharge] }
        let invites' := updateById AdminInvite.id invite.id
          (fun i => { i with isUsed := true, usedAt := some now,
                             adminId := some adminUser.id }) st.adminInvites
        (⟨201, true, "Admin account created successfully"⟩,
         { st with adminInvites := invites',
                   users := st.users ++ [adminUser],
                   events := updateById Event.id invite.eventId (fun _ => event') st.events,
                   nextUserId := st.nextUserId + 1 })

/-- Number of accounts holding a given email. -/
def countEmail (users : List User) (email : String) : Nat :=
  (users.filter fun u => u.email == email).length

/-! ## Concrete fixtures used by the witnesses -/

/-- A gender-based group event. -/
def c6Event : Event :=
  { id := 1, event_type := "group", minTeamSize := some 2, maxTeamSize := some 4,
    isActive := true, maxApplications := none, applicationDeadline := none,
    hasGenderBasedTeams := true, maxBoyTeams := some 2, maxGirlTeams := some 2,
    applications := [], staff_incharges := [] }

/-- A male team leader. -/
def c6Leader : User :=
  { id := 10, name := "L", email := "l@x", password := "p", gender := "Male",
    phoneNumber := some "1", role := "user", isSuperAdmin := false,
    club := none, assignedEvent := none, isVerified := true }

/-- State for the C6 witness. -/
def c6State : RegState :=
  { events := [c6Event], teams := [], users := [c6Leader], invites := [],
    nextId := 50 }

/-- Signup payload for the bootstrap witness. -/
def c7Req : SignupRequest :=
  { name := "A", email := "a@x", password := "p", gender := "Male",
    phoneNumber := some "9", role := none }

/-- An empty account database. -/
def c7State : AccountState := { users := [], transactions := [], nextUserId := 0 }

/-- An unverified holder of the duplicated email. -/
def c8User : User :=
  { id := 0, name := "Old", email := "dup@x", password := "q", gender := "Female",
    phoneNumber := some "2", role := "user", isSuperAdmin := false,
    club := none, assignedEvent := none, isVerified := false }

/-- Signup payload re-using the unverified email. -/
def c8Req : SignupRequest :=
  { name := "New", email := "dup@x", password := "p", gender := "Male",
    phoneNumber := some "3", role := none }

/-- Account database holding only the unverified record. -/
def c8State : AccountState := { users := [c8User], transactions := [], nextUserId := 5 }

/-- Payment payload re-using the unverified email, carrying the correct
signature for the witness HMAC function. -/
def c10Req : PaymentRequest :=
  { razorpay_order_id := "order_1", razorpay_payment_id := "pay_1",
    razorpay_signature := "S#order_1|pay_1", amount := 300,
    userData := c8Req }

/-- A concrete stand-in for the SHA-256 digest in the admin-invite
fixtures. -/
def c9Hash : String → String := fun s => "H" ++ s

/-- An admin invite whose token digest matches `c9Hash "tok"` but whose
expiry lies in the past at `c9Now`. -/
def c9Invite : AdminInvite :=
  { id := 1, email := "adm@x", clubName := "LITERARY", eventId := 3,
    inviteToken := "Htok", inviteTokenExpire := 500, invitedBy := 0,
    isUsed := false, usedAt := none, adminId := none }

/-- Admin database holding only the expired invite. -/
def c9State : AdminState :=
  { adminInvites := [c9Invite], users := [], events := [], nextUserId := 9 }

/-- A time instant past the invite's expiry. -/
def c9Now : Nat := 1000

/-- A pending invite for user 11 to join team 2 on event 1. -/
def c5Invite : Invite :=
  { id := 1, eventId := 1, teamId := 2, inviterId := 10, inviteeId := 11,
    status := "pending", respondedAt := none }

/-- State for the C5 witness: only the pending invite matters for a
decline. -/
def c5State : RegState :=
  { events := [], teams := [], users := [], invites := [c5Invite], nextId := 60 }

/-- A solo event with room for exactly one application. -/
def c2Event : Event :=
  { id := 1, event_type := "solo", minTeamSize := none, maxTeamSize := none,
    isActive := true, maxApplications := some 1, applicationDeadline := none,
    hasGenderBasedTeams := false, maxBoyTeams := none, maxGirlTeams := none,
    applications := [], staff_incharges := [] }

/-- State holding only the one-seat solo event. -/
def c2State : RegState :=
  { events := [c2Event], teams := [], users := [], invites := [], nextId := 70 }

/-- The state after the first registrant took the only seat. -/
def c2StateFull : RegState := (registerSoloEvent c2State 1 7 0).2

/-- A group event with room for exactly one registered team. -/
def c3Event : Event :=
  { id := 2, event_type := "group", minTeamSize := some 2, maxTeamSize := some 4,
    isActive := true, maxApplications := some 1, applicationDeadline := none,
    hasGenderBasedTeams := false, maxBoyTeams := none, maxGirlTeams := none,
    applications := [], staff_incharges := [] }

/-- The registered team that fills the only team slot of `c3Event`. -/
def c3RegTeam : Team :=
  { id := 3, eventId := 2, teamName := "T1", leader := 20,
    members := [⟨some 20, none⟩, ⟨some 21, none⟩], maxMembers := 4,
    isRegistered := true, registeredAt := some 0, registeredBy := some 20,
    teamGender := none, isInvalidated := false, invalidatedAt := none,
    invalidatedReason := none }

/-- State for the C3 witness. -/
def c3State : RegState :=
  { events := [c3Event], teams := [c3RegTeam], users := [], invites := [],
    nextId := 80 }

/-- An unregistered team of user 9 on the full event, trying to register
after `c3RegTeam` took the only slot. -/
def c3PendingTeam : Team :=
  { id := 7, eventId := 2, teamName := "T3", leader := 9,
    members := [⟨some 9, none⟩, ⟨some 10, none⟩], maxMembers := 4,
    isRegistered := false, registeredAt := none, registeredBy := none,
    teamGender := none, isInvalidated := false, invalidatedAt := none,
    invalidatedReason := none }

/-- State for the `registerTeam` half of the C3 witness. -/
def c3State2 : RegState :=
  { events := [c3Event], teams := [c3RegTeam, c3PendingTeam], users := [],
    invites := [], nextId := 81 }

/-- A group event without capacity and deadline, for registering teams. -/
def c4Event : Event :=
  { id := 5, event_type := "group", minTeamSize := some 2, maxTeamSize := some 4,
    isActive := true, maxApplications := none, applicationDeadline := none,
    hasGenderBasedTeams := false, maxBoyTeams := none, maxGirlTeams := none,
    applications := [], staff_incharges := [] }

/-- The team being registered; user 30 also sits on `c4TeamB`. -/
def c4TeamA : Team :=
  { id := 4, eventId := 5, teamName := "A", leader := 30,
    members := [⟨some 30, none⟩, ⟨some 31, none⟩], maxMembers := 4,
    isRegistered := false, registeredAt := none, registeredBy := none,
    teamGender := none, isInvalidated := false, invalidatedAt := none,
    invalidatedReason := none }

/-- An unregistered team sharing member 30 with `c4TeamA`. -/
def c4TeamB : Team :=
  { id := 6, eventId := 5, teamName := "B", leader := 32,
    members := [⟨some 32, none⟩, ⟨some 30, none⟩], maxMembers := 4,
    isRegistered := false, registeredAt := none, registeredBy := none,
    teamGender := none, isInvalidated := false, invalidatedAt := none,
    invalidatedReason := none }

/-- State for the C4 witness. -/
def c4State : RegState :=
  { events := [c4Event], teams := [c4TeamA, c4TeamB], users := [], invites := [],
    nextId := 90 }

/-! ## Generic lemmas about the collection operations -/

theorem find?_updateById_eq {α : Type} (getId : α → Nat) (tid : Nat)
    (g : α → α) (l : List α) (hg : ∀ x, getId x = tid → getId (g x) = tid) :
    ((updateById getId tid g l).find? fun x => getId x == tid) =
      ((l.find? fun x => getId x == tid).map fun x => g x) := by
  induction l with
  | nil => rfl
  | cons a as ih =>
    by_cases h : getId a = tid
    · have hga : (getId (g a) == tid) = true := by simp [hg a h]
      have ha : (getId a == tid) = true := by simp [h]
      simp [updateById, List.find?, h, hga, ha]
    · have ha : (getId a == tid) = false := by simp [h]
      simpa [updateById, List.find?, h, ha] using ih

theorem length_updateById {α : Type} (getId : α → Nat) (tid : Nat)
    (g : α → α) (l : List α) :
    (updateById getId tid g l).length = l.length := by
  simp [updateById]

theorem mem_updateById_of_ne {α : Type} (getId : α → Nat) (tid : Nat)
    (g : α → α) (l : List α) (x : α) (hx : x ∈ l) (hne : getId x ≠ tid) :
    x ∈ updateById getId tid g l := by
  have : (if getId x = tid then g x else x) ∈ updateById getId tid g l :=
    List.mem_map_of_mem _ hx
  simpa [hne] using this

theorem mem_updateById_of_eq {α : Type} (getId : α → Nat) (tid : Nat)
    (g : α → α) (l : List α) (x : α) (hx : x ∈ l) (heq : getId x = tid) :
    g x ∈ updateById getId tid g l := by
  have : (if getId x = tid then g x else x) ∈ updateById getId tid g l :=
    List.mem_map_of_mem _ hx
  simpa [heq] using this

theorem mem_of_find?_eq_some' {α : Type} (p : α → Bool) (l : List α) (x : α)
    (h : l.find? p = some x) : x ∈ l :=
  List.mem_of_find?_eq_some h

theorem find?_pred_true {α : Type} (p : α → Bool) (l : List α) (x : α)
    (h : l.find? p = some x) : p x = true :=
  List.find?_some h

/-! ## Lemmas about the duplicate-email prologue -/

theorem countEmail_pos (email : String) (users : List User) (u : User)
    (hfind : findUserByEmail users email = some u) :
    1 ≤ countEmail users email := by
  have hf : users.find? (fun x => x.email == email) = some u := hfind
  have hmem : u ∈ users := List.mem_of_find?_eq_some hf
  have hp := List.find?_some hf
  have hmf : u ∈ users.filter fun x => x.email == email :=
    List.mem_filter.mpr ⟨hmem, hp⟩
  have hlen : 0 < (users.filter fun x => x.email == email).length :=
    List.length_pos.mpr (List.ne_nil_of_mem hmf)
  have : countEmail users email = (users.filter fun x => x.email == email).length := rfl
  omega

theorem countEmail_findOneAndDelete (email : String) (users : List User)
    (u : User) (hfind : findUserByEmail users email = some u)
    (hver : u.isVerified = false) :
    countEmail (findOneAndDelete
      (fun x => x.email == email && x.isVerified == false) users) email =
      countEmail users email - 1 := by
  induction users with
  | nil => simp [findUserByEmail] at hfind
  | cons a as ih =>
    by_cases h : (a.email == email) = true
    · have hua : u = a := by
        have hf : (a :: as).find? (fun x => x.email == email) = some u := hfind
        have hfc := List.find?_cons_of_pos (p := fun x => x.email == email) as h
        rw [hfc] at hf
        exact (Option.some_inj.mp hf).symm
      subst hua
      simp [findOneAndDelete, countEmail, h, hver]
    · have hfind' : findUserByEmail as email = some u := by
        have hf : (a :: as).find? (fun x => x.email == email) = some u := hfind
        have hfc := List.find?_cons_of_neg (p := fun x => x.email == email)
          (a := a) as (by simp [h])
        rw [hfc] at hf
        exact hf
      have ih' := ih hfind'
      have hdel : findOneAndDelete
          (fun x => x.email == email && x.isVerified == false) (a :: as) =
          a :: findOneAndDelete
            (fun x => x.email == email && x.isVerified == false) as := by
        simp [findOneAndDelete, h]
      rw [hdel]
      have hca : countEmail (a :: findOneAndDelete
          (fun x => x.email == email && x.isVerified == false) as) email =
          countEmail (findOneAndDelete
            (fun x => x.email == email && x.isVerified == false) as) email := by
        simp [countEmail, List.filter, h]
      have hcb : countEmail (a :: as) email = countEmail as email := by
        simp [countEmail, List.filter, h]
      have hpos := countEmail_pos email as u hfind'
      omega

theorem not_mem_of_countEmail_zero (email : String) (users : List User)
    (u : User) (hmail : (u.email == email) = true)
    (hzero : countEmail users email = 0) : u ∉ users := by
  intro hmem
  have hmf : u ∈ users.filter fun x => x.email == email :=
    List.mem_filter.mpr ⟨hmem, hmail⟩
  have hlen : 0 < (users.filter fun x => x.email == email).length :=
    List.length_pos.mpr (List.ne_nil_of_mem hmf)
  have : countEmail users email = (users.filter fun x => x.email == email).length := rfl
  omega

theorem countEmail_append (users₁ users₂ : List User) (email : String) :
    countEmail (users₁ ++ users₂) email =
      countEmail users₁ email + countEmail users₂ email := by
  simp [countEmail]

/-! ## C1 -/

/-- C1: the expected signature is the HMAC-SHA256 digest of
`razorpay_order_id ++ "|" ++ razorpay_payment_id` under the configured
secret; whenever the client-supplied signature differs from it, the
handler answers status 400 with `success := false` and the state is
returned unchanged — no user and no transaction document is created. -/
theorem payment_signature_mismatch_rejected
    (hmac : String → String → String) (secret : String)
    (r : PaymentRequest) (st : AccountState)
    (h : hmac secret (r.razorpay_order_id ++ "|" ++ r.razorpay_payment_id) ≠
      r.razorpay_signature) :
    verifyPaymentAndCreateUser hmac secret r st =
      (⟨400, false, "Payment verification failed"⟩, st) := by
  simp [verifyPaymentAndCreateUser, h]

/-- Witness for C1 at the spec's own test vector
(`orderId = "order_1"`, `paymentId = "pay_1"`, secret `"S"`): a signature
different from the locally computed digest is rejected with no state
change. -/
theorem payment_signature_mismatch_rejected_witness :
    (fun s m => s ++ "#" ++ m : String → String → String) "S"
        ("order_1" ++ "|" ++ "pay_1") ≠ "bad" ∧
    verifyPaymentAndCreateUser (fun s m => s ++ "#" ++ m) "S"
        ⟨"order_1", "pay_1", "bad", 300, ⟨"A", "a@x", "p", "Male", none, none⟩⟩
        ⟨[], [], 0⟩ =
      (⟨400, false, "Payment verification failed"⟩, ⟨[], [], 0⟩) :=
  ⟨by decide, payment_signature_mismatch_rejected _ _ _ _ (by decide)⟩

/-! ## C6 -/

/-- C6: for an event with `hasGenderBasedTeams`, `createTeam` sets the
team gender as a function of the leader's gender ("Male"/"Female" map to
themselves, anything else gives "Mixed"), and once the team gender is a
binary value, `checkGenderCompatibility` rejects a user of any other
gender, which makes the invite loop refuse the invitee. -/
theorem team_gender_derivation_and_restriction
    (st : RegState) (eid tid uid inviter now : Nat) (tn : String) :
    (determineTeamGender "Male" = "Male" ∧
     determineTeamGender "Female" = "Female" ∧
     ∀ g, g ≠ "Male" → g ≠ "Female" → determineTeamGender g = "Mixed") ∧
    (∀ e leader, findEvent st.events eid = some e →
      e.hasGenderBasedTeams = true →
      findUser st.users uid = some leader →
      (createTeam st eid tn uid).1.success = true →
      ∃ t ∈ (createTeam st eid tn uid).2.teams,
        t.id = st.nextId ∧ t.leader = uid ∧
        t.teamGender = some (determineTeamGender leader.gender)) ∧
    (∀ e t u, findEvent st.events eid = some e →
      e.hasGenderBasedTeams = true →
      findTeam st.teams tid = some t → findUser st.users uid = some u →
      ((t.teamGender = some "Male" → u.gender ≠ "Male" →
        checkGenderCompatibility st eid tid uid =
          ⟨false, some "Boys can only be added to boy teams in this event"⟩) ∧
       (t.teamGender = some "Female" → u.gender ≠ "Female" →
        checkGenderCompatibility st eid tid uid =
          ⟨false, some "Girls can only be added to girl teams in this event"⟩))) ∧
    (∀ t u msg, findUser st.users uid = some u →
      u.role ≠ "admin" → uid ≠ inviter →
      isUserRegisteredForEvent st.teams st.events uid t.eventId = false →
      (t.members.any fun m => m.userId == some uid) = false →
      (st.invites.any fun i => i.teamId == t.id && i.inviteeId == uid &&
        i.status == "pending") = false →
      t.members.length +
        (st.invites.filter fun i => i.teamId == t.id && i.status == "pending").length <
        t.maxMembers →
      checkGenderCompatibility st t.eventId t.id uid = ⟨false, some msg⟩ →
      inviteStep st t inviter uid now =
        (.err ("Cannot invite " ++ u.name ++ " - " ++ msg), st)) := by
  refine ⟨⟨rfl, rfl, ?_⟩, ?_, ?_, ?_⟩
  · intro g h1 h2
    simp [determineTeamGender, h1, h2]
  · intro e leader hev hgb hu hsucc
    simp only [createTeam, hev, hu] at hsucc ⊢
    by_cases h1 : e.event_type ≠ "group"
    · simp [h1] at hsucc
    · by_cases h2 : isUserRegisteredForEvent st.teams st.events uid eid = true
      · simp [h1, h2] at hsucc
      · by_cases h3 : (st.teams.any fun t => t.eventId == eid &&
            (t.leader == uid || t.members.any (fun m => m.userId == some uid))) = true
        · simp [h1, h2, h3] at hsucc
        · simp only [h1, h2, h3, if_false, if_true, hgb] at hsucc ⊢
          refine ⟨_, List.mem_append_right _ (List.mem_singleton.mpr rfl), rfl, rfl, ?_⟩
          simp [hgb]
  · intro e t u hev hgb ht hu
    constructor
    · intro hg hu2
      simp [checkGenderCompatibility, hev, hgb, ht, hu, hg, hu2]
    · intro hg hu2
      simp [checkGenderCompatibility, hev, hgb, ht, hu, hg, hu2]
  · intro t u msg hu hrole hself hreg hinteam hpend hcap hgc
    have hcap' : ¬ (t.maxMembers ≤ t.members.length +
        (st.invites.filter fun i => i.teamId == t.id && i.status == "pending").length) :=
      Nat.not_le.mpr hcap
    have hself' : uid ≠ inviter := hself
    simp [inviteStep, hu, hrole, hself', hreg, hinteam, hpend, hcap', hgc]

/-- Witness for C6: a concrete gender-based event, a male-led team and a
female invitee; the team is created "Male" and the invite step refuses
the invitee as gender-incompatible. -/
theorem team_gender_derivation_and_restriction_witness :
    ∃ t ∈ (createTeam c6State 1 "T" 10).2.teams,
      t.id = 50 ∧ t.leader = 10 ∧
      t.teamGender = some (determineTeamGender c6Leader.gender) :=
  (team_gender_derivation_and_restriction c6State 1 0 10 0 0 "T").2.1
    c6Event c6Leader (by decide) (by decide) (by decide) (by decide)

/-! ## Lemmas about the signup creation suffix -/

theorem signUpCreate_state (r : SignupRequest) (emailOk : Bool) (st : AccountState) :
    (signUpCreate r emailOk st).2 =
      { st with
        users := st.users ++
          [{ id := st.nextUserId, name := r.name, email := r.email,
             password := r.password, gender := r.gender,
             phoneNumber := if st.users.length == 0 then none else r.phoneNumber,
             role := if st.users.length == 0 then "admin" else jsOrStr r.role "user",
             isSuperAdmin := st.users.length == 0,
             club := if st.users.length == 0 then some "FINE ARTS" else none,
             assignedEvent := none, isVerified := false }],
        nextUserId := st.nextUserId + 1 } := by
  unfold signUpCreate
  split <;> rfl

theorem signUpUser_state (r : SignupRequest) (emailOk : Bool) (st : AccountState)
    (hnv : ∀ u, findUserByEmail st.users r.email = some u → u.isVerified = false) :
    signUpUser r emailOk st =
      signUpCreate r emailOk
        { st with users := signupRemainingUsers r.email st.users } := by
  unfold signUpUser signupRemainingUsers
  cases hfind : findUserByEmail st.users r.email with
  | none => simp
  | some u => simp [hnv u hfind]

/-! ## C7 -/

/-- C7: after the duplicate-email prologue of signup, a user count of
exactly zero makes the created user an `admin` super-admin with a club
assigned; any signup facing a positive user count creates a
non-super-admin whose role defaults to "user", so only a signup hitting
an empty user collection yields the bootstrap super-admin. -/
theorem first_user_bootstrap_super_admin
    (r : SignupRequest) (emailOk : Bool) (st : AccountState)
    (hnv : ∀ u, findUserByEmail st.users r.email = some u → u.isVerified = false) :
    (signupRemainingUsers r.email st.users = [] →
      ∃ u, (signUpUser r emailOk st).2.users = [u] ∧
        u.role = "admin" ∧ u.isSuperAdmin = true ∧ u.club = some "FINE ARTS") ∧
    (signupRemainingUsers r.email st.users ≠ [] →
      ∃ u, (signUpUser r emailOk st).2.users =
          signupRemainingUsers r.email st.users ++ [u] ∧
        u.isSuperAdmin = false ∧ u.role = jsOrStr r.role "user") := by
  rw [signUpUser_state r emailOk st hnv, signUpCreate_state]
  constructor
  · intro hempty
    simp only [hempty]
    exact ⟨_, rfl, rfl, rfl, rfl⟩
  · intro hne
    have hlen : ((signupRemainingUsers r.email st.users).length == 0) = false := by
      cases hrem : signupRemainingUsers r.email st.users with
      | nil => exact absurd hrem hne
      | cons a as => simp
    refine ⟨_, rfl, ?_, ?_⟩ <;> simp [hlen]

/-- Witness for C7: on an empty database the very first signup comes out
as the super-admin. -/
theorem first_user_bootstrap_super_admin_witness :
    ∃ u, (signUpUser c7Req true c7State).2.users = [u] ∧
      u.role = "admin" ∧ u.isSuperAdmin = true ∧ u.club = some "FINE ARTS" :=
  (first_user_bootstrap_super_admin c7Req true c7State
    (by intro u h; simp [c7State, findUserByEmail] at h)).1 (by decide)

/-! ## C8 -/

/-- C8: a signup whose email belongs to a verified account is rejected
with `success:false` and leaves the database untouched; a signup whose
email belongs to an unverified account deletes that record before the
new user is created, so afterwards exactly one account holds the
email. -/
theorem signup_duplicate_email
    (r : SignupRequest) (emailOk : Bool) (st : AccountState)
    (hfresh : ∀ u ∈ st.users, u.id < st.nextUserId) :
    (∀ u, findUserByEmail st.users r.email = some u → u.isVerified = true →
      signUpUser r emailOk st =
        (⟨400, false, "Email already registered and verified. Please login instead."⟩,
         st)) ∧
    (∀ u, findUserByEmail st.users r.email = some u → u.isVerified = false →
      countEmail st.users r.email ≤ 1 →
      u ∉ (signUpUser r emailOk st).2.users ∧
      countEmail (signUpUser r emailOk st).2.users r.email = 1) := by
  constructor
  · intro u hfind hver
    simp [signUpUser, hfind, hver]
  · intro u hfind hver hcount
    have hnv : ∀ v, findUserByEmail st.users r.email = some v →
        v.isVerified = false := by
      intro v hv
      rw [hfind] at hv
      cases hv
      exact hver
    rw [signUpUser_state r emailOk st hnv, signUpCreate_state]
    have hrem : signupRemainingUsers r.email st.users =
        findOneAndDelete (fun x => x.email == r.email && x.isVerified == false)
          st.users := by
      simp [signupRemainingUsers, hfind, hver]
    have hdel := countEmail_findOneAndDelete r.email st.users u hfind hver
    have hpos := countEmail_pos r.email st.users u hfind
    have hzero : countEmail (signupRemainingUsers r.email st.users) r.email = 0 := by
      rw [hrem, hdel]
      omega
    have hmail : (u.email == r.email) = true := by
      have hf : st.users.find? (fun x => x.email == r.email) = some u := hfind
      have := List.find?_some hf
      simpa using this
    constructor
    · intro hmem
      rcases List.mem_append.mp hmem with h1 | h2
      · exact not_mem_of_countEmail_zero _ _ _ hmail hzero h1
      · have hid := hfresh u (List.mem_of_find?_eq_some
          (show st.users.find? (fun x => x.email == r.email) = some u from hfind))
        have hu2 := List.mem_singleton.mp h2
        have : u.id = st.nextUserId := by rw [hu2]
        omega
    · rw [countEmail_append, hzero]
      simp [countEmail]

/-- Witness for C8: on a database holding one unverified account for the
email, re-signup removes it and the email ends up on exactly one
account. -/
theorem signup_duplicate_email_witness :
    c8User ∉ (signUpUser c8Req true c8State).2.users ∧
    countEmail (signUpUser c8Req true c8State).2.users c8Req.email = 1 :=
  (signup_duplicate_email c8Req true c8State (by decide)).2 c8User
    (by decide) (by decide) (by decide)

/-! ## C10 -/

/-- The database state of `verifyPaymentAndCreateUser` after a successful
creation, spelled out. -/
theorem payCreate_state (r : PaymentRequest) (st : AccountState) :
    (payCreate r st).2 =
      { st with
        users := st.users ++
          [{ id := st.nextUserId, name := r.userData.name,
             email := r.userData.email, password := r.userData.password,
             gender := r.userData.gender, phoneNumber := r.userData.phoneNumber,
             role := "user", isSuperAdmin := false, club := none,
             assignedEvent := none, isVerified := false }],
        transactions := st.transactions ++
          [⟨r.razorpay_order_id, r.razorpay_payment_id, r.razorpay_signature,
            r.amount, true, st.nextUserId⟩],
        nextUserId := st.nextUserId + 1 } := rfl

/-- C10: with a correct signature, the payment-gated signup mirrors the
plain signup's duplicate-email handling — a verified holder of the email
causes a rejection with no user and no transaction created, and an
unverified holder is deleted before the new user and its transaction are
persisted. -/
theorem payment_duplicate_email
    (hmac : String → String → String) (secret : String)
    (r : PaymentRequest) (st : AccountState)
    (hsig : hmac secret (r.razorpay_order_id ++ "|" ++ r.razorpay_payment_id) =
      r.razorpay_signature)
    (hfresh : ∀ u ∈ st.users, u.id < st.nextUserId) :
    (∀ u, findUserByEmail st.users r.userData.email = some u →
      u.isVerified = true →
      verifyPaymentAndCreateUser hmac secret r st =
        (⟨400, false, "Email already registered and verified. Please login instead."⟩,
         st)) ∧
    (∀ u, findUserByEmail st.users r.userData.email = some u →
      u.isVerified = false →
      countEmail st.users r.userData.email ≤ 1 →
      u ∉ (verifyPaymentAndCreateUser hmac secret r st).2.users ∧
      countEmail (verifyPaymentAndCreateUser hmac secret r st).2.users
        r.userData.email = 1 ∧
      (verifyPaymentAndCreateUser hmac secret r st).2.transactions =
        st.transactions ++ [⟨r.razorpay_order_id, r.razorpay_payment_id,
          r.razorpay_signature, r.amount, true, st.nextUserId⟩]) := by
  constructor
  · intro u hfind hver
    simp [verifyPaymentAndCreateUser, hsig, hfind, hver]
  · intro u hfind hver hcount
    have hstep : verifyPaymentAndCreateUser hmac secret r st =
        payCreate r ⟨findOneAndDelete (fun x => x.email == r.userData.email && x.isVerified == false) st.users, st.transactions, st.nextUserId⟩ := by
      simp [verifyPaymentAndCreateUser, hsig, hfind, hver]
    rw [hstep, payCreate_state]
    have hdel := countEmail_findOneAndDelete r.userData.email st.users u hfind hver
    have hpos := countEmail_pos r.userData.email st.users u hfind
    have hzero : countEmail (findOneAndDelete
        (fun x => x.email == r.userData.email && x.isVerified == false)
        st.users) r.userData.email = 0 := by
      rw [hdel]
      omega
    have hmail : (u.email == r.userData.email) = true := by
      have hf : st.users.find? (fun x => x.email == r.userData.email) = some u :=
        hfind
      have := List.find?_some hf
      simpa using this
    refine ⟨?_, ?_, rfl⟩
    · intro hmem
      rcases List.mem_append.mp hmem with h1 | h2
      · exact not_mem_of_countEmail_zero _ _ _ hmail hzero h1
      · have hid := hfresh u (List.mem_of_find?_eq_some
          (show st.users.find? (fun x => x.email == r.userData.email) = some u
            from hfind))
        have hu2 := List.mem_singleton.mp h2
        have : u.id = st.nextUserId := by rw [hu2]
        omega
    · rw [countEmail_append, hzero]
      simp [countEmail]

/-- Witness for C10: a correctly signed payment over an email held by an
unverified account deletes the record, creates the user and appends
exactly one transaction. -/
theorem payment_duplicate_email_witness :
    c8User ∉ (verifyPaymentAndCreateUser (fun s m => s ++ "#" ++ m) "S"
      c10Req c8State).2.users ∧
    countEmail (verifyPaymentAndCreateUser (fun s m => s ++ "#" ++ m) "S"
      c10Req c8State).2.users c10Req.userData.email = 1 ∧
    (verifyPaymentAndCreateUser (fun s m => s ++ "#" ++ m) "S"
      c10Req c8State).2.transactions =
      c8State.transactions ++ [⟨c10Req.razorpay_order_id,
        c10Req.razorpay_payment_id, c10Req.razorpay_signature,
        c10Req.amount, true, c8State.nextUserId⟩] :=
  (payment_duplicate_email (fun s m => s ++ "#" ++ m) "S" c10Req c8State
    (by decide) (by decide)).2 c8User (by decide) (by decide) (by decide)

/-! ## C9 -/

/-- Counterexample for C9 as stated: an admin-signup request presenting
an expired token but an empty `name` fails with "All fields are
required", not with "Invalid or expired invitation token" — the
required-fields check runs before the token lookup, so the token error
does not dominate regardless of other field validity. -/
theorem admin_invite_expired_token_counterexample :
    (∀ i ∈ c9State.adminInvites, i.inviteToken = c9Hash "tok" →
      (i.inviteTokenExpire ≤ c9Now ∨ i.isUsed = true)) ∧
    (completeAdminSignup c9Hash c9State "tok" "" "p" "Male" c9Now).1.message =
      "All fields are required" ∧
    (completeAdminSignup c9Hash c9State "tok" "" "p" "Male" c9Now).1.message ≠
      "Invalid or expired invitation token" := by
  refine ⟨by decide, by decide, by decide⟩

/-- C9 (amended): invite-token expiry is exactly 7 days after
generation; lookup and signup completion match only invites whose stored
digest equals the hash of the presented token, whose expiry is strictly
in the future, and which are unused; when every digest-matching invite
is expired or used and the required fields are present (non-empty), both
endpoints fail with "Invalid or expired invitation token" — a missing
required field fails earlier with "All fields are required". -/
theorem admin_invite_token_validity
    (hash : String → String) (inv : AdminInvite) (raw : String)
    (st : AdminState) (token name password gender : String) (now : Nat) :
    ((generateInviteToken hash inv raw now).2.inviteTokenExpire =
      now + 7 * 24 * 60 * 60 * 1000) ∧
    (∀ i, findValidAdminInvite hash st.adminInvites token now = some i →
      i.inviteToken = hash token ∧ now < i.inviteTokenExpire ∧ i.isUsed = false) ∧
    ((∀ i ∈ st.adminInvites, i.inviteToken = hash token →
        (i.inviteTokenExpire ≤ now ∨ i.isUsed = true)) →
      getInviteDetails hash st token now =
        ⟨400, false, "Invalid or expired invitation token"⟩ ∧
      (name ≠ "" → password ≠ "" → gender ≠ "" →
        completeAdminSignup hash st token name password gender now =
          (⟨400, false, "Invalid or expired invitation token"⟩, st))) := by
  have hvalid : ∀ i, findValidAdminInvite hash st.adminInvites token now = some i →
      i.inviteToken = hash token ∧ now < i.inviteTokenExpire ∧ i.isUsed = false := by
    intro i hi
    have hf : st.adminInvites.find? (fun x => x.inviteToken == hash token &&
        decide (now < x.inviteTokenExpire) && (x.isUsed == false)) = some i := hi
    have hp := List.find?_some hf
    simp only [Bool.and_eq_true, beq_iff_eq, decide_eq_true_eq] at hp
    exact ⟨hp.1.1, hp.1.2, hp.2⟩
  refine ⟨rfl, hvalid, ?_⟩
  intro hall
  have hnone : findValidAdminInvite hash st.adminInvites token now = none := by
    cases hfind : findValidAdminInvite hash st.adminInvites token now with
    | none => rfl
    | some i =>
      exfalso
      obtain ⟨h1, h2, h3⟩ := hvalid i hfind
      have hmem : i ∈ st.adminInvites := by
        have hf : st.adminInvites.find? (fun x => x.inviteToken == hash token &&
            decide (now < x.inviteTokenExpire) && (x.isUsed == false)) = some i :=
          hfind
        exact List.mem_of_find?_eq_some hf
      rcases hall i hmem h1 with h | h
      · omega
      · rw [h3] at h
        exact Bool.false_ne_true h
  constructor
  · simp [getInviteDetails, hnone]
  · intro hn hp hg
    simp [completeAdminSignup, hnone, hn, hp, hg]

/-- Witness for C9 (amended): at the concrete expired invite, both the
lookup and a fully-populated signup fail with the token error. -/
theorem admin_invite_token_validity_witness :
    getInviteDetails c9Hash c9State "tok" c9Now =
      ⟨400, false, "Invalid or expired invitation token"⟩ ∧
    completeAdminSignup c9Hash c9State "tok" "N" "p" "Male" c9Now =
      (⟨400, false, "Invalid or expired invitation token"⟩, c9State) :=
  ⟨((admin_invite_token_validity c9Hash c9Invite "raw" c9State "tok" "N" "p"
      "Male" c9Now).2.2 (by decide)).1,
   ((admin_invite_token_validity c9Hash c9Invite "raw" c9State "tok" "N" "p"
      "Male" c9Now).2.2 (by decide)).2 (by decide) (by decide) (by decide)⟩

/-! ## Lemmas about responding to invites -/

theorem findInvite_update_status (l : List Invite) (inv : Invite) (s : String)
    (now : Nat) (hfind : findInvite l inv.id = some inv) :
    findInvite (updateById Invite.id inv.id
      (fun i => { i with status := s, respondedAt := some now }) l) inv.id =
      some { inv with status := s, respondedAt := some now } := by
  have h := find?_updateById_eq Invite.id inv.id
    (fun i => { i with status := s, respondedAt := some now }) l (fun _ h => h)
  unfold findInvite at hfind ⊢
  rw [h, hfind]
  rfl

theorem respond_nonpending_conflict (st : RegState) (iid uid : Nat)
    (resp : String) (now : Nat) (inv : Invite)
    (hinv : findInvite st.invites iid = some inv)
    (hwho : inv.inviteeId = uid) (hst : inv.status ≠ "pending") :
    respondToInvite st iid uid resp now =
      (⟨400, false, "Invite has already been responded to"⟩, st) := by
  simp [respondToInvite, hinv, hwho, hst]

theorem respond_invites_cases (st : RegState) (uid : Nat) (resp : String)
    (now : Nat) (inv : Invite)
    (hinv : findInvite st.invites inv.id = some inv) :
    (respondToInvite st inv.id uid resp now).2.invites = st.invites ∨
    (respondToInvite st inv.id uid resp now).2.invites =
      updateById Invite.id inv.id
        (fun i => { i with status := "accepted", respondedAt := some now })
        st.invites ∨
    (respondToInvite st inv.id uid resp now).2.invites =
      updateById Invite.id inv.id
        (fun i => { i with status := "declined", respondedAt := some now })
        st.invites := by
  unfold respondToInvite
  simp only [hinv]
  split
  · left; rfl
  · split
    · left; rfl
    · split
      · split
        · left; rfl
        · split
          · left; rfl
          · split
            · left; rfl
            · split
              · left; rfl
              · split
                · split
                  · left; rfl
                  · right; left; rfl
                · right; left; rfl
      · split
        · right; right; rfl
        · left; rfl

theorem respond_invite_after (st : RegState) (uid : Nat) (resp : String)
    (now : Nat) (inv : Invite)
    (hinv : findInvite st.invites inv.id = some inv) :
    ∀ inv', findInvite (respondToInvite st inv.id uid resp now).2.invites
        inv.id = some inv' →
      inv' = inv ∨
      inv' = { inv with status := "accepted", respondedAt := some now } ∨
      inv' = { inv with status := "declined", respondedAt := some now } := by
  intro inv' hinv'
  rcases respond_invites_cases st uid resp now inv hinv with h | h | h
  · rw [h, hinv] at hinv'
    left
    exact (Option.some_inj.mp hinv').symm
  · rw [h, findInvite_update_status st.invites inv "accepted" now hinv] at hinv'
    right; left
    exact (Option.some_inj.mp hinv').symm
  · rw [h, findInvite_update_status st.invites inv "declined" now hinv] at hinv'
    right; right
    exact (Option.some_inj.mp hinv').symm

/-! ## C5 -/

/-- C5: invite transitions are one-way — a non-pending invite answers
every respond call from its invitee with a 400 conflict ("Invite has
already been responded to") and the state is unchanged; a respond call
can only leave the status alone or move it to "accepted" or "declined";
and once the stored status is no longer pending, every further respond
call from the invitee yields the conflict and changes nothing. -/
theorem invite_transitions_one_way
    (st : RegState) (iid uid : Nat) (resp : String) (now : Nat) (inv : Invite)
    (hinv : findInvite st.invites iid = some inv)
    (hwho : inv.inviteeId = uid) :
    (inv.status ≠ "pending" →
      respondToInvite st iid uid resp now =
        (⟨400, false, "Invite has already been responded to"⟩, st)) ∧
    (∀ inv', findInvite (respondToInvite st iid uid resp now).2.invites iid =
        some inv' →
      inv'.status = inv.status ∨ inv'.status = "accepted" ∨
        inv'.status = "declined") ∧
    (∀ inv', findInvite (respondToInvite st iid uid resp now).2.invites iid =
        some inv' →
      inv'.status ≠ "pending" →
      ∀ resp2 now2,
        respondToInvite (respondToInvite st iid uid resp now).2 iid uid
            resp2 now2 =
          (⟨400, false, "Invite has already been responded to"⟩,
           (respondToInvite st iid uid resp now).2)) := by
  have hid : inv.id = iid := by
    have hp := List.find?_some
      (show st.invites.find? (fun i => i.id == iid) = some inv from hinv)
    simpa using hp
  subst hid
  refine ⟨?_, ?_, ?_⟩
  · intro hst
    exact respond_nonpending_conflict st inv.id uid resp now inv hinv hwho hst
  · intro inv' h'
    rcases respond_invite_after st uid resp now inv hinv inv' h' with rfl | rfl | rfl
    · left; rfl
    · right; left; rfl
    · right; right; rfl
  · intro inv' h' hne resp2 now2
    refine respond_nonpending_conflict _ _ _ _ _ inv' h' ?_ hne
    rcases respond_invite_after st uid resp now inv hinv inv' h' with rfl | rfl | rfl
    · exact hwho
    · exact hwho
    · exact hwho

/-- Witness for C5: declining a concrete pending invite, then responding
again, hits the 400 conflict and leaves the state unchanged. -/
theorem invite_transitions_one_way_witness :
    respondToInvite (respondToInvite c5State 1 11 "decline" 5).2 1 11
        "accept" 6 =
      (⟨400, false, "Invite has already been responded to"⟩,
       (respondToInvite c5State 1 11 "decline" 5).2) :=
  (invite_transitions_one_way c5State 1 11 "decline" 5 c5Invite (by decide)
    (by decide)).2.2 ⟨1, 1, 2, 10, 11, "declined", some 5⟩ (by decide)
    (by decide) "accept" 6

/-! ## C2 -/

/-- C2: for a solo event with a capacity set (and only solo applications
stored, which is all either handler ever appends to a solo event), both
solo-registration handlers reject an eligible attempt with "Event is
full" whenever the existing solo applications already reach
`maxApplications`; a successful call appends exactly one application and
stays within the bound; an unsuccessful call leaves the state untouched
— hence under sequential execution `applications.length` never exceeds
`maxApplications`. -/
theorem solo_capacity_enforced
    (st : RegState) (eid uid now m : Nat) (e : Event)
    (hev : findEvent st.events eid = some e)
    (htype : e.event_type = "solo")
    (hmax : e.maxApplications = some m) (hm : m ≠ 0)
    (hsolo : ∀ a ∈ e.applications, a.teamId = none) :
    (isUserRegisteredForEvent st.teams st.events uid eid = false →
      m ≤ e.applications.length →
      registerSoloEvent st eid uid now = (⟨400, false, "Event is full"⟩, st) ∧
      (e.isActive = true →
        registerForEvent st eid uid now = (⟨400, false, "Event is full"⟩, st))) ∧
    ((registerSoloEvent st eid uid now).1.success = false →
      (registerSoloEvent st eid uid now).2 = st) ∧
    ((registerForEvent st eid uid now).1.success = false →
      (registerForEvent st eid uid now).2 = st) ∧
    ((registerSoloEvent st eid uid now).1.success = true →
      ∃ e', findEvent (registerSoloEvent st eid uid now).2.events eid = some e' ∧
        e'.applications.length = e.applications.length + 1 ∧
        e'.applications.length ≤ m) ∧
    ((registerForEvent st eid uid now).1.success = true →
      ∃ e', findEvent (registerForEvent st eid uid now).2.events eid = some e' ∧
        e'.applications.length = e.applications.length + 1 ∧
        e'.applications.length ≤ m) ∧
    (e.applications.length ≤ m →
      (∀ e', findEvent (registerSoloEvent st eid uid now).2.events eid = some e' →
        e'.applications.length ≤ m) ∧
      (∀ e', findEvent (registerForEvent st eid uid now).2.events eid = some e' →
        e'.applications.length ≤ m)) := by
  have heid : e.id = eid := by
    have hp := List.find?_some
      (show st.events.find? (fun x => x.id == eid) = some e from hev)
    simpa using hp
  have hfl : soloApplications e = e.applications := by
    unfold soloApplications
    rw [List.filter_eq_self]
    intro a ha
    simp [hsolo a ha]
  have htruthy : jsTruthyNat (some m) = true := by
    simp [jsTruthyNat, hm]
  have hupfind : ∀ e' : Event, e'.id = eid →
      findEvent (updateById Event.id eid (fun _ => e') st.events) eid = some e' := by
    intro e' he'
    have h := find?_updateById_eq Event.id eid (fun _ => e') st.events
      (fun _ _ => he')
    unfold findEvent at hev ⊢
    rw [h, hev]
    rfl
  -- exhaustive characterization of registerSoloEvent under the hypotheses
  have hcharS : ((registerSoloEvent st eid uid now).1.success = false ∧
        (registerSoloEvent st eid uid now).2 = st) ∨
      (e.applications.length < m ∧
        registerSoloEvent st eid uid now =
          (⟨200, true, "Successfully registered for the event"⟩,
           { st with events := (updateById Event.id eid (fun _ =>
              { e with applications := e.applications ++ [⟨uid, none, now, none⟩] })
              st.events) })) := by
    by_cases hreg : isUserRegisteredForEvent st.teams st.events uid eid = true
    · left
      simp [registerSoloEvent, hev, htype, hreg]
    · by_cases hcap : m ≤ e.applications.length
      · left
        have hcap' : jsTruthyNat e.maxApplications = true ∧
            e.maxApplications.getD 0 ≤ (soloApplications e).length := by
          rw [hfl, hmax]
          exact ⟨htruthy, hcap⟩
        simp [registerSoloEvent, hev, htype, hreg, hcap']
      · by_cases hdl : deadlinePassed e now = true
        · left
          have hcap' : ¬ (jsTruthyNat e.maxApplications = true ∧
              e.maxApplications.getD 0 ≤ (soloApplications e).length) := by
            rw [hfl, hmax]
            intro h
            exact hcap h.2
          simp [registerSoloEvent, hev, htype, hreg, hcap', hdl]
        · right
          have hcap' : ¬ (jsTruthyNat e.maxApplications = true ∧
              e.maxApplications.getD 0 ≤ (soloApplications e).length) := by
            rw [hfl, hmax]
            intro h
            exact hcap h.2
          refine ⟨Nat.lt_of_not_le hcap, ?_⟩
          simp [registerSoloEvent, hev, htype, hreg, hcap', hdl]
  -- exhaustive characterization of registerForEvent under the hypotheses
  have hcharF : ((registerForEvent st eid uid now).1.success = false ∧
        (registerForEvent st eid uid now).2 = st) ∨
      (e.applications.length < m ∧
        registerForEvent st eid uid now =
          (⟨200, true, "Successfully registered for the event"⟩,
           { st with events := (updateById Event.id eid (fun _ =>
              { e with applications :=
                e.applications ++ [⟨uid, none, now, some "pending"⟩] })
              st.events) })) := by
    by_cases hreg : isUserRegisteredForEvent st.teams st.events uid eid = true
    · left
      simp [registerForEvent, hev, hreg]
    · by_cases hact : e.isActive = false
      · left
        simp [registerForEvent, hev, hreg, hact]
      · by_cases hcap : m ≤ e.applications.length
        · left
          have hcap' : jsTruthyNat e.maxApplications = true ∧
              e.maxApplications.getD 0 ≤ e.applications.length := by
            rw [hmax]
            exact ⟨htruthy, hcap⟩
          simp [registerForEvent, hev, hreg, hact, hcap']
        · by_cases hdl : deadlinePassed e now = true
          · left
            have hcap' : ¬ (jsTruthyNat e.maxApplications = true ∧
                e.maxApplications.getD 0 ≤ e.applications.length) := by
              rw [hmax]
              intro h
              exact hcap h.2
            simp [registerForEvent, hev, hreg, hact, hcap', hdl]
          · right
            have hcap' : ¬ (jsTruthyNat e.maxApplications = true ∧
                e.maxApplications.getD 0 ≤ e.applications.length) := by
              rw [hmax]
              intro h
              exact hcap h.2
            refine ⟨Nat.lt_of_not_le hcap, ?_⟩
            simp [registerForEvent, hev, hreg, hact, hcap', hdl]
  refine ⟨?_, ?_, ?_, ?_, ?_, ?_⟩
  · intro hreg hcap
    have hcapS : jsTruthyNat e.maxApplications = true ∧
        e.maxApplications.getD 0 ≤ (soloApplications e).length := by
      rw [hfl, hmax]
      exact ⟨htruthy, hcap⟩
    have hcapF : jsTruthyNat e.maxApplications = true ∧
        e.maxApplications.getD 0 ≤ e.applications.length := by
      rw [hmax]
      exact ⟨htruthy, hcap⟩
    constructor
    · simp [registerSoloEvent, hev, htype, hreg, hcapS]
    · intro hact
      have hact' : ¬ e.isActive = false := by simp [hact]
      simp [registerForEvent, hev, hreg, hact', hcapF]
  · intro hfail
    rcases hcharS with ⟨_, h2⟩ | ⟨_, h2⟩
    · exact h2
    · rw [h2] at hfail
      simp at hfail
  · intro hfail
    rcases hcharF with ⟨_, h2⟩ | ⟨_, h2⟩
    · exact h2
    · rw [h2] at hfail
      simp at hfail
  · intro hsucc
    rcases hcharS with ⟨h1, _⟩ | ⟨h1, h2⟩
    · rw [hsucc] at h1
      simp at h1
    · rw [h2]
      refine ⟨_, hupfind _ heid, ?_, ?_⟩ <;> simp <;> omega
  · intro hsucc
    rcases hcharF with ⟨h1, _⟩ | ⟨h1, h2⟩
    · rw [hsucc] at h1
      simp at h1
    · rw [h2]
      refine ⟨_, hupfind _ heid, ?_, ?_⟩ <;> simp <;> omega
  · intro hbound
    constructor
    · intro e' he'
      rcases hcharS with ⟨_, h2⟩ | ⟨h1, h2⟩
      · rw [h2, hev] at he'
        cases he'
        exact hbound
      · rw [h2] at he'
        have := hupfind { e with applications :=
          e.applications ++ [⟨uid, none, now, none⟩] } heid
        rw [this] at he'
        cases he'
        simpa using h1
    · intro e' he'
      rcases hcharF with ⟨_, h2⟩ | ⟨h1, h2⟩
      · rw [h2, hev] at he'
        cases he'
        exact hbound
      · rw [h2] at he'
        have := hupfind { e with applications :=
          e.applications ++ [⟨uid, none, now, some "pending"⟩] } heid
        rw [this] at he'
        cases he'
        simpa using h1

/-! ## Lemmas about the gender-limit and team-size error strings -/

theorem maxlimit_msg_ne (s t : String) :
    ("Maximum limit of " ++ s ++ t) ≠ "Event is full" := by
  intro h
  have hl := congrArg String.length h
  rw [String.length_append, String.length_append] at hl
  have h1 : "Maximum limit of ".length = 17 := by decide
  have h2 : "Event is full".length = 13 := by decide
  rw [h1, h2] at hl
  omega

theorem minsize_msg_ne (s : String) :
    ("Team needs at least " ++ s ++ " members to register") ≠ "Event is full" := by
  intro h
  have hl := congrArg String.length h
  rw [String.length_append, String.length_append] at hl
  have h1 : "Team needs at least ".length = 20 := by decide
  have h2 : " members to register".length = 20 := by decide
  have h3 : "Event is full".length = 13 := by decide
  rw [h1, h2, h3] at hl
  omega

theorem genderLimits_cases (st : RegState) (eid : Nat) (g : String) :
    (checkGenderBasedTeamLimits st eid g).withinLimits = true ∨
    ((checkGenderBasedTeamLimits st eid g).withinLimits = false ∧
     ∃ s t, (checkGenderBasedTeamLimits st eid g).message =
       some ("Maximum limit of " ++ s ++ t)) := by
  unfold checkGenderBasedTeamLimits
  split
  · left; rfl
  · split
    · left; rfl
    · dsimp only
      split
      · right; exact ⟨rfl, _, _, rfl⟩
      · split
        · right; exact ⟨rfl, _, _, rfl⟩
        · left; rfl

/-- Witness for C2 at the spec's scenario (`maxApplications := 1`): after
the first registrant filled the seat, a second attempt is rejected with
"Event is full" and the state is unchanged. -/
theorem solo_capacity_enforced_witness :
    registerSoloEvent c2StateFull 1 8 0 =
      (⟨400, false, "Event is full"⟩, c2StateFull) :=
  ((solo_capacity_enforced c2StateFull 1 8 0 1
      { c2Event with applications := [⟨7, none, 0, none⟩] }
      (by decide) (by decide) (by decide) (by decide) (by decide)).1
    (by decide) (by decide)).1

/-- The "Event is full" rejection of `registerTeam` happens exactly when
the capacity condition over registered-team counting holds, provided the
handler reaches the capacity check. -/
theorem registerTeam_full_iff (st : RegState) (tid uid now : Nat)
    (tm : Team) (e : Event)
    (hteam : findTeam st.teams tid = some tm)
    (hmem : (tm.members.any fun mm => mm.userId == some uid) = true)
    (hregd : tm.isRegistered = false)
    (hev : findEvent st.events tm.eventId = some e) :
    ((registerTeam st tid uid now).1 = ⟨400, false, "Event is full"⟩ ↔
      (jsTruthyNat e.maxApplications = true ∧
       e.maxApplications.getD 0 ≤ registeredTeamsCount st.teams tm.eventId)) := by
  have c1 : ¬ ((tm.members.any fun mm => mm.userId == some uid) = false) := by
    simp [hmem]
  have c2 : ¬ (tm.isRegistered = true) := by
    simp [hregd]
  by_cases hcap : jsTruthyNat e.maxApplications = true ∧
      e.maxApplications.getD 0 ≤ registeredTeamsCount st.teams tm.eventId
  · constructor
    · intro _
      exact hcap
    · intro _
      unfold registerTeam
      simp only [hteam, hev]
      rw [if_neg c1, if_neg c2, if_pos hcap]
  · constructor
    · intro hres
      exfalso
      unfold registerTeam at hres
      simp only [hteam, hev] at hres
      rw [if_neg c1, if_neg c2, if_neg hcap] at hres
      by_cases hgb : e.hasGenderBasedTeams = true ∧ tm.teamGender.isSome = true
      · rw [if_pos hgb] at hres
        rcases genderLimits_cases st tm.eventId (tm.teamGender.getD "") with
          hw | ⟨hwf, s, t, hmsg⟩
        · rw [if_neg (by simp [hw])] at hres
          by_cases hdl : deadlinePassed e now = true
          · rw [if_pos hdl] at hres
            simp at hres
          · rw [if_neg hdl] at hres
            by_cases hms : tm.members.length < jsOrNat e.minTeamSize 2
            · rw [if_pos hms] at hres
              have hmsg2 := congrArg ApiResponse.message hres
              exact minsize_msg_ne _ hmsg2
            · rw [if_neg hms] at hres
              simp at hres
        · rw [if_pos (by simp [hwf])] at hres
          have hmsg2 := congrArg ApiResponse.message hres
          rw [show ((⟨400, false, (checkGenderBasedTeamLimits st tm.eventId
              (tm.teamGender.getD "")).message.getD ""⟩ : ApiResponse), st).1.message =
            (checkGenderBasedTeamLimits st tm.eventId
              (tm.teamGender.getD "")).message.getD "" from rfl] at hmsg2
          rw [hmsg] at hmsg2
          exact maxlimit_msg_ne s t hmsg2
      · rw [if_neg hgb] at hres
        rw [if_neg (by simp)] at hres
        by_cases hdl : deadlinePassed e now = true
        · rw [if_pos hdl] at hres
          simp at hres
        · rw [if_neg hdl] at hres
          by_cases hms : tm.members.length < jsOrNat e.minTeamSize 2
          · rw [if_pos hms] at hres
            have hmsg2 := congrArg ApiResponse.message hres
            exact minsize_msg_ne _ hmsg2
          · rw [if_neg hms] at hres
            simp at hres
    · intro h
      exact absurd h hcap

/-! ## C3 -/

/-- C3: for a group event with a capacity set, the capacity check shared
by the team-creation flow (`registerGroupEvent`) and the
team-registration flow (`registerTeam`) counts teams with
`isRegistered = true` for the event — `registeredTeamsCount`, not the
length of the event's `applications` array — and rejects with "Event is
full" exactly when that count has reached `maxApplications`. -/
theorem group_capacity_counts_registered_teams
    (st : RegState) (eid uid now m : Nat) (tn : String) (e : Event)
    (hev : findEvent st.events eid = some e)
    (htype : e.event_type = "group")
    (hmax : e.maxApplications = some m) (hm : m ≠ 0) :
    (isUserRegisteredForEvent st.teams st.events uid eid = false →
      (st.teams.any fun t => t.eventId == eid &&
        (t.leader == uid || t.members.any (fun mm => mm.userId == some uid))) =
        false →
      ((registerGroupEvent st eid tn uid now).1 = ⟨400, false, "Event is full"⟩ ↔
        m ≤ registeredTeamsCount st.teams eid)) ∧
    (∀ tid tm, findTeam st.teams tid = some tm → tm.eventId = eid →
      (tm.members.any fun mm => mm.userId == some uid) = true →
      tm.isRegistered = false →
      ((registerTeam st tid uid now).1 = ⟨400, false, "Event is full"⟩ ↔
        m ≤ registeredTeamsCount st.teams eid)) := by
  have htruthy : jsTruthyNat (some m) = true := by
    simp [jsTruthyNat, hm]
  constructor
  · intro hreg hnoteam
    by_cases hcap : m ≤ registeredTeamsCount st.teams eid
    · have hcap' : jsTruthyNat e.maxApplications = true ∧
          e.maxApplications.getD 0 ≤ registeredTeamsCount st.teams eid := by
        rw [hmax]
        exact ⟨htruthy, hcap⟩
      constructor
      · intro _
        exact hcap
      · intro _
        simp [registerGroupEvent, hev, htype, hreg, hnoteam, hcap']
    · have hcap' : ¬ (jsTruthyNat e.maxApplications = true ∧
          e.maxApplications.getD 0 ≤ registeredTeamsCount st.teams eid) := by
        rw [hmax]
        intro h
        exact hcap h.2
      constructor
      · intro hres
        exfalso
        by_cases hdl : deadlinePassed e now = true
        · simp [registerGroupEvent, hev, htype, hreg, hnoteam, hcap', hdl] at hres
        · simp [registerGroupEvent, hev, htype, hreg, hnoteam, hcap', hdl] at hres
      · intro h
        exact absurd h hcap
  · intro tid tm hteam hteq hmem hregd
    have hiff := registerTeam_full_iff st tid uid now tm e hteam hmem hregd
      (by rw [hteq]; exact hev)
    rw [hiff, hteq, hmax]
    constructor
    · intro h
      exact h.2
    · intro h
      exact ⟨htruthy, h⟩

/-- Witness for C3, exercising both flows: with one registered team on a
one-slot group event, a newcomer's team creation is rejected with
"Event is full", and so is registering a further, member-holding
unregistered team. -/
theorem group_capacity_counts_registered_teams_witness :
    (registerGroupEvent c3State 2 "T2" 9 0).1 = ⟨400, false, "Event is full"⟩ ∧
    (registerTeam c3State2 7 9 0).1 = ⟨400, false, "Event is full"⟩ :=
  ⟨((group_capacity_counts_registered_teams c3State 2 9 0 1 "T2" c3Event
      (by decide) (by decide) (by decide) (by decide)).1 (by decide)
      (by decide)).mpr (by decide),
   ((group_capacity_counts_registered_teams c3State2 2 9 0 1 "T2" c3Event
      (by decide) (by decide) (by decide) (by decide)).2 7 c3PendingTeam
      (by decide) (by decide) (by decide) (by decide)).mpr (by decide)⟩

/-! ## C4 -/

/-- C4: a successful `registerTeam` deletes no team; it soft-invalidates
— with `invalidatedAt` and `invalidatedReason` set — every other team of
the same event that was not registered and contains any of the newly
registered members as leader or member; and the registered team itself
is marked registered with its `isInvalidated` flag untouched. -/
theorem register_team_invalidates_other_teams
    (st : RegState) (tid uid now : Nat) (tm : Team)
    (hteam : findTeam st.teams tid = some tm)
    (hsucc : (registerTeam st tid uid now).1.success = true) :
    (registerTeam st tid uid now).2.teams.length = st.teams.length ∧
    (∀ t ∈ st.teams, t.id ≠ tid → t.eventId = tm.eventId →
      t.isRegistered = false →
      sharesMemberWith (tm.members.filterMap fun mm => mm.userId) t = true →
      invalidateTeam now t ∈ (registerTeam st tid uid now).2.teams) ∧
    (∀ t, (invalidateTeam now t).isInvalidated = true ∧
      (invalidateTeam now t).invalidatedAt = some now ∧
      (invalidateTeam now t).invalidatedReason =
        some "Member registered with another team") ∧
    (markRegistered now uid tm ∈ (registerTeam st tid uid now).2.teams) ∧
    ((markRegistered now uid tm).isRegistered = true ∧
      (markRegistered now uid tm).isInvalidated = tm.isInvalidated) := by
  have htid : tm.id = tid := by
    have hp := List.find?_some
      (show st.teams.find? (fun t => t.id == tid) = some tm from hteam)
    simpa using hp
  have hchar : (registerTeam st tid uid now).1.success = false ∨
      (registerTeam st tid uid now).2.teams =
        ((updateById Team.id tid (markRegistered now uid) st.teams).map
          fun t =>
            if t.eventId = tm.eventId ∧ t.id ≠ tid ∧
                sharesMemberWith (tm.members.filterMap fun mm => mm.userId) t =
                  true ∧ t.isRegistered = false then
              invalidateTeam now t
            else t) := by
    unfold registerTeam
    simp only [hteam]
    repeat' first | (left; rfl) | (right; rfl) | split
  rcases hchar with h | h
  · rw [hsucc] at h
    simp at h
  · rw [h]
    refine ⟨?_, ?_, fun t => ⟨rfl, rfl, rfl⟩, ?_, rfl, rfl⟩
    · simp [updateById]
    · intro t ht hne hevq hregf hshares
      have h1 : (fun x => if Team.id x = tid then markRegistered now uid x else x)
          t = t := by
        simp [hne]
      have hmem1 : t ∈ updateById Team.id tid (markRegistered now uid) st.teams := by
        rw [show t = (fun x => if Team.id x = tid then markRegistered now uid x
            else x) t from h1.symm]
        exact List.mem_map_of_mem _ ht
      have h2 : (if t.eventId = tm.eventId ∧ t.id ≠ tid ∧
          sharesMemberWith (tm.members.filterMap fun mm => mm.userId) t = true ∧
          t.isRegistered = false then invalidateTeam now t else t) =
          invalidateTeam now t := by
        rw [if_pos ⟨hevq, hne, hshares, hregf⟩]
      rw [← h2]
      exact List.mem_map_of_mem _ hmem1
    · have hmemtm : tm ∈ st.teams := List.mem_of_find?_eq_some
        (show st.teams.find? (fun t => t.id == tid) = some tm from hteam)
      have hmem1 : markRegistered now uid tm ∈
          updateById Team.id tid (markRegistered now uid) st.teams :=
        mem_updateById_of_eq Team.id tid (markRegistered now uid) st.teams tm
          hmemtm htid
      have h2 : (if (markRegistered now uid tm).eventId = tm.eventId ∧
          (markRegistered now uid tm).id ≠ tid ∧
          sharesMemberWith (tm.members.filterMap fun mm => mm.userId)
            (markRegistered now uid tm) = true ∧
          (markRegistered now uid tm).isRegistered = false then
            invalidateTeam now (markRegistered now uid tm)
          else markRegistered now uid tm) = markRegistered now uid tm := by
        rw [if_neg]
        intro hcontr
        exact hcontr.2.1 htid
      rw [← h2]
      exact List.mem_map_of_mem _ hmem1

/-- Witness for C4: registering team 4 (users 30, 31) invalidates the
other unregistered team 6 containing user 30, keeps both teams stored,
and marks team 4 registered. -/
theorem register_team_invalidates_other_teams_witness :
    (registerTeam c4State 4 30 9).2.teams.length = c4State.teams.length ∧
    (invalidateTeam 9 c4TeamB ∈ (registerTeam c4State 4 30 9).2.teams) ∧
    (markRegistered 9 30 c4TeamA ∈ (registerTeam c4State 4 30 9).2.teams) :=
  ⟨(register_team_invalidates_other_teams c4State 4 30 9 c4TeamA (by decide)
      (by decide)).1,
   (register_team_invalidates_other_teams c4State 4 30 9 c4TeamA (by decide)
      (by decide)).2.1 c4TeamB (by decide) (by decide) (by decide) (by decide)
      (by decide),
   (register_team_invalidates_other_teams c4State 4 30 9 c4TeamA (by decide)
      (by decide)).2.2.2.1⟩

end Legacy
